import Mathlib

/-!
Verification development for the customerjourney (FunnelFlow) CRM backend.

The definitions below are a shallow embedding of the JavaScript source:

* stage classification, lead grouping, lead validation and the lead route
  handlers come from src/routes/leads.js;
* the credential-store operations come from src/routes/auth.js;
* the username/password field validators come from src/utils/validators.js
  and the username-based register handler from the revision stored as
  src/unnamed/part_009.

JavaScript numbers that hold millisecond timestamps are modelled as Nat
(ids) and as rationals (timestamps and derived day ages), JavaScript
`undefined` for an absent request field is modelled as Option.none, and a
row set returned by the relational store is modelled as a List of records.
Each definition carries a comment naming the source lines it embeds.
-/

/-- Truthiness of a JavaScript string-or-undefined value: `undefined` and
the empty string are falsy, every other string is truthy. -/
def jsTruthy : Option String → Bool
  | none => false
  | some s => !(s == "")

/-- The JavaScript idiom `s || fallback` for a string `s`. -/
def jsOr (s fallback : String) : String := if s = "" then fallback else s

/-- JavaScript String.prototype.trim: drop leading and trailing whitespace.
Implemented structurally over the character list so that it evaluates. -/
def jsTrim (s : String) : String :=
  ⟨((s.data.dropWhile Char.isWhitespace).reverse.dropWhile Char.isWhitespace).reverse⟩

/-- Splits a character list at every occurrence of the separator, keeping
empty runs, as JavaScript String.prototype.split with a one-character
separator does. -/
def splitOnChar (sep : Char) : List Char → List (List Char)
  | [] => [[]]
  | c :: rest =>
    match splitOnChar sep rest with
    | [] => [[]]
    | h :: t => if c = sep then [] :: h :: t else (c :: h) :: t

/-- JavaScript String.prototype.split with a one-character separator. -/
def jsSplit (sep : Char) (s : String) : List String :=
  (splitOnChar sep s.data).map (fun cs => ⟨cs⟩)

/-- JavaScript Array.prototype.join with the comma separator. -/
def joinComma : List String → String
  | [] => ""
  | [x] => x
  | x :: rest => x ++ "," ++ joinComma rest

/-- JavaScript String.prototype.toLowerCase (and the SQL LOWER function) on
the ASCII range. -/
def jsToLower (s : String) : String := ⟨s.data.map Char.toLower⟩

/-- Canonical funnel stages, src/routes/leads.js line 50 (the same literal
list appears at lines 163 and 307). -/
def validStages : List String :=
  ["awareness", "interest", "intent", "evaluation", "purchase"]

/-- The stage-classification expression
`validStages.includes(stage) ? stage : 'awareness'` that appears verbatim at
src/routes/leads.js lines 54 and 163-164 (the spec calls it `classify`). -/
def classify (stage : String) : String :=
  if stage ∈ validStages then stage else "awareness"

/-- A row of the leads_clean table as selected by src/routes/leads.js
(columns listed in the INSERT at lines 167-169). Timestamps are rational
milliseconds since the epoch. -/
structure Lead where
  id : Nat
  user_id : Nat
  company : String
  contact : String
  email : String
  stage : String
  notes : String
  content : String
  created_at : ℚ
deriving DecidableEq, Repr

/-- The token list `(lead.content || '').split(',').map(s => s.trim()).filter(Boolean)`
built at src/routes/leads.js lines 63-67. -/
def contentStrategiesOf (content : String) : List String :=
  ((jsSplit ',' content).map jsTrim).filter (fun t => t != "")

/-- The projection pushed into a stage bucket by groupLeadsByStage,
src/routes/leads.js lines 55-67: the spread of the original row plus the
normalized presentation fields. -/
structure GroupedLead where
  lead : Lead
  currentStage : String
  company : String
  contact : String
  email : String
  notes : String
  content : String
  contentStrategies : List String
deriving DecidableEq, Repr

/-- Builds the object literal of src/routes/leads.js lines 55-67 for a lead
and its already-classified stage. -/
def mkGroupedLead (lead : Lead) (stage : String) : GroupedLead :=
  { lead := lead
    currentStage := stage
    company := jsOr lead.company "Unknown Company"
    contact := jsOr lead.contact ""
    email := jsOr lead.email ""
    notes := jsOr lead.notes ""
    content := jsOr lead.content ""
    contentStrategies := contentStrategiesOf (jsOr lead.content "") }

/-- The grouped response object: a key-ordered association list, mirroring
the JavaScript object `grouped` whose keys are created at
src/routes/leads.js line 51 and never extended afterwards. -/
abbrev Grouped := List (String × List GroupedLead)

/-- The five-key empty object literal of src/routes/leads.js line 51 (the
same literal is returned directly at lines 107-113 when a user has no
leads). -/
def emptyGrouped : Grouped :=
  [("awareness", []), ("interest", []), ("intent", []),
   ("evaluation", []), ("purchase", [])]

/-- The statement `grouped[stage].push(x)`: appends `x` to the sequence held
under key `k`. (In JavaScript the key is always present when this runs,
because the pushed key is the classified stage; theorem groupLeadsByStage
keys below shows the key set is constantly the five canonical stages.) -/
def pushAt (g : Grouped) (k : String) (x : GroupedLead) : Grouped :=
  g.map (fun p => if p.1 = k then (p.1, p.2 ++ [x]) else p)

/-- The body of the forEach callback of groupLeadsByStage,
src/routes/leads.js lines 53-68. -/
def groupStep (g : Grouped) (lead : Lead) : Grouped :=
  let stage := if lead.stage ∈ validStages then lead.stage else "awareness"
  pushAt g stage (mkGroupedLead lead stage)

/-- groupLeadsByStage, src/routes/leads.js lines 49-71. -/
def groupLeadsByStage (leads : List Lead) : Grouped :=
  leads.foldl groupStep emptyGrouped

/-- The sequence of normalized leads that ends up in the bucket of stage
`s`: the input leads whose classified stage is `s`, in input order. Used to
characterize groupLeadsByStage. -/
def bucketOf (leads : List Lead) (s : String) : List GroupedLead :=
  (leads.filter (fun l => classify l.stage == s)).map
    (fun l => mkGroupedLead l (classify l.stage))

/-- Number of input leads whose classified stage is `s`. -/
def stageCount (leads : List Lead) (s : String) : Nat :=
  (leads.filter (fun l => classify l.stage == s)).length

lemma classify_cases (s : String) :
    classify s = "awareness" ∨ classify s = "interest" ∨ classify s = "intent" ∨
    classify s = "evaluation" ∨ classify s = "purchase" := by
  unfold classify
  by_cases h : s ∈ validStages
  · simp only [validStages, List.mem_cons, List.not_mem_nil, or_false] at h
    rcases h with h|h|h|h|h <;> subst h <;> simp [validStages]
  · simp [h]

lemma classify_mem (s : String) : classify s ∈ validStages := by
  rcases classify_cases s with h|h|h|h|h <;> rw [h] <;> simp [validStages]

lemma groupStep_eq (g : Grouped) (lead : Lead) :
    groupStep g lead = pushAt g (classify lead.stage)
      (mkGroupedLead lead (classify lead.stage)) := rfl

lemma bucketOf_nil (s : String) : bucketOf [] s = [] := rfl

lemma bucketOf_cons (l : Lead) (t : List Lead) (s : String) :
    bucketOf (l :: t) s =
      (if classify l.stage = s
        then [mkGroupedLead l (classify l.stage)] else []) ++ bucketOf t s := by
  unfold bucketOf
  rw [List.filter_cons]
  by_cases h : classify l.stage = s
  · simp [h]
  · simp [h]

/-- Main characterization: folding groupStep over the five-bucket state
appends exactly the classified-stage buckets, in input order. -/
lemma foldl_groupStep_eq (leads : List Lead) :
    ∀ b1 b2 b3 b4 b5 : List GroupedLead,
      leads.foldl groupStep
        [("awareness", b1), ("interest", b2), ("intent", b3),
         ("evaluation", b4), ("purchase", b5)] =
      [("awareness", b1 ++ bucketOf leads "awareness"),
       ("interest", b2 ++ bucketOf leads "interest"),
       ("intent", b3 ++ bucketOf leads "intent"),
       ("evaluation", b4 ++ bucketOf leads "evaluation"),
       ("purchase", b5 ++ bucketOf leads "purchase")] := by
  induction leads with
  | nil => intro b1 b2 b3 b4 b5; simp [bucketOf]
  | cons l t ih =>
    intro b1 b2 b3 b4 b5
    rw [List.foldl_cons, groupStep_eq]
    rcases classify_cases l.stage with h|h|h|h|h
    · rw [h]
      simp only [pushAt, List.map_cons, List.map_nil, String.reduceEq, reduceIte]
      rw [ih (b1 ++ [mkGroupedLead l "awareness"]) b2 b3 b4 b5]
      simp [bucketOf_cons, h, List.append_assoc]
    · rw [h]
      simp only [pushAt, List.map_cons, List.map_nil, String.reduceEq, reduceIte]
      rw [ih b1 (b2 ++ [mkGroupedLead l "interest"]) b3 b4 b5]
      simp [bucketOf_cons, h, List.append_assoc]
    · rw [h]
      simp only [pushAt, List.map_cons, List.map_nil, String.reduceEq, reduceIte]
      rw [ih b1 b2 (b3 ++ [mkGroupedLead l "intent"]) b4 b5]
      simp [bucketOf_cons, h, List.append_assoc]
    · rw [h]
      simp only [pushAt, List.map_cons, List.map_nil, String.reduceEq, reduceIte]
      rw [ih b1 b2 b3 (b4 ++ [mkGroupedLead l "evaluation"]) b5]
      simp [bucketOf_cons, h, List.append_assoc]
    · rw [h]
      simp only [pushAt, List.map_cons, List.map_nil, String.reduceEq, reduceIte]
      rw [ih b1 b2 b3 b4 (b5 ++ [mkGroupedLead l "purchase"])]
      simp [bucketOf_cons, h, List.append_assoc]

/-- groupLeadsByStage yields exactly the five canonical buckets, each being
the classified filter of the input in input order. -/
lemma groupLeadsByStage_eq (leads : List Lead) :
    groupLeadsByStage leads =
      [("awareness", bucketOf leads "awareness"),
       ("interest", bucketOf leads "interest"),
       ("intent", bucketOf leads "intent"),
       ("evaluation", bucketOf leads "evaluation"),
       ("purchase", bucketOf leads "purchase")] := by
  have h := foldl_groupStep_eq leads [] [] [] [] []
  simpa [groupLeadsByStage, emptyGrouped] using h

/-- A character admitted by the bracket class of the email pattern
/^[^\s@]+@[^\s@]+\.[^\s@]+$/ used at src/routes/leads.js line 78: anything
that is not whitespace and not an at-sign. -/
def isEmailChar (c : Char) : Bool := !(c == '@' || c.isWhitespace)

/-- True when the string holds a dot that is neither its first nor its last
character, so that the tail of the email pattern can split the domain into
two non-empty runs around it. -/
def hasInnerDot (s : String) : Bool := ((s.toList.drop 1).dropLast).contains '.'

/-- Test of the regular expression /^[^\s@]+@[^\s@]+\.[^\s@]+$/ from
src/routes/leads.js line 78: exactly one at-sign, a non-empty local part, and
a domain that some dot splits into two non-empty runs; no whitespace
anywhere. -/
def emailRegexTest (s : String) : Bool :=
  match jsSplit '@' s with
  | [localPart, domain] =>
    !(localPart == "") && localPart.toList.all isEmailChar &&
      domain.toList.all isEmailChar && hasInnerDot domain
  | _ => false

/-- validateLeadData, src/routes/leads.js lines 73-82. The two arguments are
the company and email properties of the object literal passed at the call
sites (lines 155 and 299); `none` models an absent property. Returns `none`
for a valid input, mirroring the `null` return. -/
def validateLeadData (company email : Option String) : Option (List String) :=
  let errors :=
    (if !(jsTruthy company) || (jsTrim (company.getD "")).length < 2
      then ["Company name must be at least 2 characters"] else [])
    ++ (if jsTruthy email && !(emailRegexTest (email.getD ""))
      then ["Invalid email format"] else [])
  if errors.length > 0 then some errors else none

/-- The content value a request body can carry: a JSON array of strings, a
string, or any other value (the handlers normalize each case). -/
inductive ContentVal
  | arr (xs : List String)
  | str (s : String)
  | other
deriving DecidableEq, Repr

/-- The content normalization of POST /api/leads, src/routes/leads.js lines
149-153: arrays are trimmed, emptied of blanks and comma-joined; strings are
trimmed; anything else becomes the empty string. -/
def normalizedContentPost : ContentVal → String
  | .arr xs => joinComma ((xs.map jsTrim).filter (fun t => t != ""))
  | .str s => jsTrim s
  | .other => ""

/-- Request body of POST /api/leads as destructured at src/routes/leads.js
lines 132-139; `none` is an absent property, so the defaults of the
destructuring are applied inside the handler. -/
structure CreateBody where
  company : Option String
  contact : Option String
  email : Option String
  stage : Option String
  notes : Option String
  content : Option ContentVal
deriving Repr

/-- Response of POST /api/leads: 400 for the missing-field guard of line
142, 400 for the validator of lines 155-161, 201 with the refreshed grouped
set on success (line 192). -/
inductive CreateResult
  | missingFields (details : List String)
  | validationFailed (details : List String)
  | created (grouped : Grouped)
deriving DecidableEq, Repr

/-- HTTP status attached to each CreateResult branch. -/
def CreateResult.status : CreateResult → Nat
  | .missingFields _ => 400
  | .validationFailed _ => 400
  | .created _ => 201

/-- The row inserted by POST /api/leads, src/routes/leads.js lines 163-180:
trimmed fields, the classified stage expression of lines 163-164, the
normalized content, and CURRENT_TIMESTAMP as created_at. -/
def insertedLead (uid : Nat) (body : CreateBody) (newId : Nat) (now : ℚ) : Lead :=
  let stage := body.stage.getD "awareness"
  let leadStage := if stage ∈ validStages then stage else "awareness"
  { id := newId
    user_id := uid
    company := jsTrim (body.company.getD "")
    contact := jsTrim (body.contact.getD "")
    email := jsTrim (body.email.getD "")
    stage := leadStage
    notes := jsTrim (body.notes.getD "")
    content := normalizedContentPost (body.content.getD (.str ""))
    created_at := now }

/-- The row set of `SELECT * FROM leads_clean WHERE user_id = $1 ORDER BY
created_at DESC` (src/routes/leads.js lines 101-104, 186-189, 342-345):
the leads of the user, most recent first. -/
def fetchRows (store : List Lead) (uid : Nat) : List Lead :=
  (store.filter (fun l => l.user_id == uid)).mergeSort
    (fun a b => decide (b.created_at ≤ a.created_at))

/-- POST /api/leads, src/routes/leads.js lines 129-201: the missing-field
guard, content normalization, validateLeadData, stage classification, the
INSERT, and the 201 response carrying the re-fetched grouped leads. Returns
the response together with the store after the request. -/
def createLead (store : List Lead) (uid : Nat) (body : CreateBody)
    (newId : Nat) (now : ℚ) : CreateResult × List Lead :=
  if !(jsTruthy body.company && jsTruthy body.contact && jsTruthy body.email) then
    (.missingFields ["Company, contact, and email are required"], store)
  else
    match validateLeadData body.company body.email with
    | some errors => (.validationFailed errors, store)
    | none =>
      let store' := store ++ [insertedLead uid body newId now]
      (.created (groupLeadsByStage (fetchRows store' uid)), store')

/-- GET /api/leads/:userId, src/routes/leads.js lines 88-126, after the
authentication and user-id checks have passed (the malformed parenthesis of
line 93 is read as the evident isNaN guard): the early five-empty-key
response of lines 106-114 when the user has no rows, the grouped rows
otherwise. -/
def getLeads (store : List Lead) (uid : Nat) : Grouped :=
  let rows := fetchRows store uid
  if rows.length = 0 then
    [("awareness", []), ("interest", []), ("intent", []),
     ("evaluation", []), ("purchase", [])]
  else groupLeadsByStage rows

/-- Request body of PUT /api/leads/:id as destructured at
src/routes/leads.js line 294. -/
structure UpdateBody where
  company : Option String
  contact : Option String
  email : Option String
  stage : Option String
  notes : Option String
  content : Option ContentVal
deriving Repr

/-- The content normalization of PUT /api/leads/:id, src/routes/leads.js
line 297: `Array.isArray(content) ? content.join(',') : content?.trim() || ''`. -/
def normalizedContentPut : Option ContentVal → String
  | some (.arr xs) => joinComma xs
  | some (.str s) => jsOr (jsTrim s) ""
  | some .other => ""
  | none => ""

/-- The JavaScript expression `v?.trim() || null` applied to the optional
update fields at src/routes/leads.js lines 331-335. -/
def trimOrNull (v : Option String) : Option String :=
  match v with
  | none => none
  | some s => if jsTrim s = "" then none else some (jsTrim s)

/-- SQL COALESCE of an optional new value and a current column value. -/
def coalesce (v : Option String) (current : String) : String := v.getD current

/-- Response of PUT /api/leads/:id: 400 for the validator of lines 299-305,
404 for the ownership check of lines 310-318, 200 with the refreshed grouped
set on success (line 347). -/
inductive PutResult
  | validationFailed (details : List String)
  | notFound
  | updated (grouped : Grouped)
deriving DecidableEq, Repr

/-- HTTP status attached to each PutResult branch. -/
def PutResult.status : PutResult → Nat
  | .validationFailed _ => 400
  | .notFound => 404
  | .updated _ => 200

/-- PUT /api/leads/:id, src/routes/leads.js lines 285-355, after
authentication and the numeric-id guard: content normalization and
validation (lines 297-305), the stage expression of lines 307-308, the
ownership check of lines 310-318, then the COALESCE update of lines 320-340
and the 200 response carrying the re-fetched grouped leads. Returns the
response together with the store after the request. -/
def putLead (store : List Lead) (callerId leadId : Nat) (body : UpdateBody) :
    PutResult × List Lead :=
  let content := normalizedContentPut body.content
  match validateLeadData body.company body.email with
  | some errors => (.validationFailed errors, store)
  | none =>
    let leadStage : Option String :=
      match body.stage with
      | some s => if s ∈ validStages then some s else none
      | none => none
    if store.any (fun l => l.id == leadId && l.user_id == callerId) then
      let store' := store.map (fun l =>
        if l.id == leadId && l.user_id == callerId then
          { l with
            company := coalesce (trimOrNull body.company) l.company
            contact := coalesce (trimOrNull body.contact) l.contact
            email := coalesce (trimOrNull body.email) l.email
            stage := coalesce leadStage l.stage
            notes := coalesce (trimOrNull body.notes) l.notes
            content := content }
        else l)
      (.updated (groupLeadsByStage (fetchRows store' callerId)), store')
    else (.notFound, store)

/-- The per-stage counter object initialized at src/routes/leads.js lines
222-228. -/
structure StageCounts where
  awareness : Nat
  interest : Nat
  intent : Nat
  evaluation : Nat
  purchase : Nat
deriving DecidableEq, Repr

/-- The property read `stageCounts[s]`: defined for the five keys of the
object literal, undefined (none) for every other string. -/
def StageCounts.get (c : StageCounts) (s : String) : Option Nat :=
  if s = "awareness" then some c.awareness
  else if s = "interest" then some c.interest
  else if s = "intent" then some c.intent
  else if s = "evaluation" then some c.evaluation
  else if s = "purchase" then some c.purchase
  else none

/-- The increment `stageCounts[s]++` for a key of the object. -/
def StageCounts.inc (c : StageCounts) (s : String) : StageCounts :=
  if s = "awareness" then { c with awareness := c.awareness + 1 }
  else if s = "interest" then { c with interest := c.interest + 1 }
  else if s = "intent" then { c with intent := c.intent + 1 }
  else if s = "evaluation" then { c with evaluation := c.evaluation + 1 }
  else if s = "purchase" then { c with purchase := c.purchase + 1 }
  else c

/-- The age helper `daysAgo` of src/routes/leads.js line 220: elapsed
milliseconds divided into fractional days. -/
def daysAgo (now created : ℚ) : ℚ := (now - created) / (1000 * 60 * 60 * 24)

/-- The mutable accumulators of the metrics loop, src/routes/leads.js lines
222-233. -/
structure MetricsAcc where
  counts : StageCounts
  totalDaysInFunnel : ℚ
  hotLeads : Nat
  staleLeads : Nat
  recentLeads : Nat
deriving DecidableEq, Repr

/-- The body of the metrics forEach, src/routes/leads.js lines 235-245:
default unknown stages to awareness, bump the stage counter, accumulate the
age, and count the recent, hot and stale buckets. -/
def metricsStep (now : ℚ) (acc : MetricsAcc) (lead : Lead) : MetricsAcc :=
  let stage := if (acc.counts.get lead.stage).isSome then lead.stage else "awareness"
  let age := daysAgo now lead.created_at
  { counts := acc.counts.inc stage
    totalDaysInFunnel := acc.totalDaysInFunnel + age
    recentLeads := acc.recentLeads + (if age ≤ 7 then 1 else 0)
    hotLeads := acc.hotLeads +
      (if stage ∈ (["intent", "evaluation", "purchase"] : List String) ∧ age ≤ 7
        then 1 else 0)
    staleLeads := acc.staleLeads +
      (if age > 14 ∧ stage ∈ (["awareness", "interest"] : List String)
        then 1 else 0) }

/-- The zero-initialized accumulators of src/routes/leads.js lines 222-233. -/
def emptyMetricsAcc : MetricsAcc :=
  { counts := ⟨0, 0, 0, 0, 0⟩
    totalDaysInFunnel := 0
    hotLeads := 0
    staleLeads := 0
    recentLeads := 0 }

/-- Math.round: round half toward positive infinity, the rounding JavaScript
applies to every percentage at src/routes/leads.js lines 249-271. -/
def jsRound (x : ℚ) : ℤ := ⌊x + 1/2⌋

/-- The expression `+(x).toFixed(1)`: x rounded to one decimal place, ties
toward positive infinity (src/routes/leads.js line 264). -/
def toFixed1 (x : ℚ) : ℚ := ((⌊10 * x + 1/2⌋ : ℤ) : ℚ) / 10

/-- The stageDistribution object of src/routes/leads.js lines 265-268: a
rounded percentage per canonical stage. -/
structure StageDist where
  awareness : ℤ
  interest : ℤ
  intent : ℤ
  evaluation : ℤ
  purchase : ℤ
deriving DecidableEq, Repr

/-- The JSON body sent by GET /api/leads/metrics/:userId, src/routes/leads.js
lines 259-273; avgTimeInFunnel is none when the response field is null. -/
structure MetricsReport where
  totalLeads : Nat
  awarenessToInterest : ℤ
  interestToConsideration : ℤ
  conversionRate : ℤ
  avgTimeInFunnel : Option ℚ
  stageDistribution : StageDist
  leadsAddedThisWeek : Nat
  inferredHotLeads : Nat
  engagementRate : ℤ
  staleLeads : Nat
deriving DecidableEq, Repr

/-- GET /api/leads/metrics/:userId, src/routes/leads.js lines 204-282, after
the authorization check: one pass of metricsStep over the rows of the user,
then the derived ratios of lines 247-273 with their zero-denominator guards. -/
def computeMetrics (leads : List Lead) (now : ℚ) : MetricsReport :=
  let acc := leads.foldl (metricsStep now) emptyMetricsAcc
  let totalLeads := leads.length
  let considerationCount := acc.counts.intent + acc.counts.evaluation
  { totalLeads := totalLeads
    awarenessToInterest :=
      if acc.counts.awareness > 0
        then jsRound (((acc.counts.interest : ℚ) / (acc.counts.awareness : ℚ)) * 100)
        else 0
    interestToConsideration :=
      if acc.counts.interest > 0
        then jsRound (((considerationCount : ℚ) / (acc.counts.interest : ℚ)) * 100)
        else 0
    conversionRate :=
      if acc.counts.awareness > 0
        then jsRound (((acc.counts.purchase : ℚ) / (acc.counts.awareness : ℚ)) * 100)
        else 0
    avgTimeInFunnel :=
      if totalLeads > 0
        then some (toFixed1 (acc.totalDaysInFunnel / (totalLeads : ℚ)))
        else none
    stageDistribution :=
      { awareness := if totalLeads > 0
          then jsRound (((acc.counts.awareness : ℚ) / (totalLeads : ℚ)) * 100) else 0
        interest := if totalLeads > 0
          then jsRound (((acc.counts.interest : ℚ) / (totalLeads : ℚ)) * 100) else 0
        intent := if totalLeads > 0
          then jsRound (((acc.counts.intent : ℚ) / (totalLeads : ℚ)) * 100) else 0
        evaluation := if totalLeads > 0
          then jsRound (((acc.counts.evaluation : ℚ) / (totalLeads : ℚ)) * 100) else 0
        purchase := if totalLeads > 0
          then jsRound (((acc.counts.purchase : ℚ) / (totalLeads : ℚ)) * 100) else 0 }
    leadsAddedThisWeek := acc.recentLeads
    inferredHotLeads := acc.hotLeads
    engagementRate :=
      if totalLeads > 0
        then jsRound (((acc.recentLeads : ℚ) / (totalLeads : ℚ)) * 100)
        else 0
    staleLeads := acc.staleLeads }

/-- Total fractional age in days of the input leads, the reference value for
the totalDaysInFunnel accumulator. -/
def totalAgeDays (leads : List Lead) (now : ℚ) : ℚ :=
  (leads.map (fun l => daysAgo now l.created_at)).sum

/-- Number of leads at most seven days old, the reference value for the
recentLeads accumulator. -/
def recentCount (leads : List Lead) (now : ℚ) : Nat :=
  (leads.filter (fun l => decide (daysAgo now l.created_at ≤ 7))).length

/-- Number of leads in a late stage and at most seven days old, the
reference value for the hotLeads accumulator. -/
def hotCount (leads : List Lead) (now : ℚ) : Nat :=
  (leads.filter (fun l =>
    decide (classify l.stage ∈ (["intent", "evaluation", "purchase"] : List String)
      ∧ daysAgo now l.created_at ≤ 7))).length

/-- Number of leads in an early stage and more than fourteen days old, the
reference value for the staleLeads accumulator. -/
def staleCount (leads : List Lead) (now : ℚ) : Nat :=
  (leads.filter (fun l =>
    decide (daysAgo now l.created_at > 14
      ∧ classify l.stage ∈ (["awareness", "interest"] : List String)))).length

/-- A row of the user table as used by src/routes/auth.js: email, password
hash, and the reset-token pair (reset_token, resetexpires), both nullable. -/
structure Account where
  id : Nat
  email : String
  password : String
  resetToken : Option String
  resetExpires : Option ℚ
deriving DecidableEq, Repr

/-- The credential store: the rows of the user table. -/
abbrev UserStore := List Account

/-- Response of POST /api/auth/request-reset, src/routes/auth.js lines
106-137. -/
inductive ResetRequestResult
  | notFound
  | sent
deriving DecidableEq, Repr

/-- POST /api/auth/request-reset, src/routes/auth.js lines 106-137: look the
account up by email, store a fresh token with a one-hour expiry (line 116:
Date.now() + 3600000 milliseconds), and acknowledge. The mail dispatch is an
external collaborator and does not touch the store. -/
def requestReset (store : UserStore) (email token : String) (now : ℚ) :
    ResetRequestResult × UserStore :=
  if store.any (fun a => a.email == email) then
    (.sent, store.map (fun a =>
      if a.email == email then
        { a with resetToken := some token, resetExpires := some (now + 3600000) }
      else a))
  else (.notFound, store)

/-- Response of POST /api/auth/reset-password, src/routes/auth.js lines
140-168. -/
inductive ResetPasswordResult
  | missingInput
  | invalidToken
  | ok
deriving DecidableEq, Repr

/-- The WHERE clause of the SELECT at src/routes/auth.js lines 147-150:
reset_token = token AND resetexpires > NOW() (a SQL NULL expiry compares
false). -/
def tokenMatches (a : Account) (token : String) (now : ℚ) : Bool :=
  a.resetToken == some token &&
    (match a.resetExpires with
     | some e => decide (now < e)
     | none => false)

/-- POST /api/auth/reset-password, src/routes/auth.js lines 140-168: reject
a missing token or password, reject when no row carries the token unexpired,
otherwise run the single UPDATE of lines 158-161, which sets the new hash
and nulls reset_token and resetexpires on every row whose reset_token equals
the token. -/
def resetPassword (store : UserStore) (token password : Option String)
    (newHash : String) (now : ℚ) : ResetPasswordResult × UserStore :=
  if !(jsTruthy token && jsTruthy password) then (.missingInput, store)
  else
    let t := token.getD ""
    if store.any (fun a => tokenMatches a t now) then
      (.ok, store.map (fun a =>
        if a.resetToken == some t then
          { a with password := newHash, resetToken := none, resetExpires := none }
        else a))
    else (.invalidToken, store)

/-- Response of POST /api/auth/register, src/routes/auth.js lines 41-61. -/
inductive EmailRegisterResult
  | duplicate
  | ok (id : Nat) (email : String)
deriving DecidableEq, Repr

/-- POST /api/auth/register of src/routes/auth.js lines 41-61 (the
email-keyed revision): reject an existing email with a 400, otherwise insert
the account with the bcrypt hash supplied by the external hashing
collaborator and empty reset fields. -/
def registerUser (store : UserStore) (email hashedPassword : String)
    (newId : Nat) : EmailRegisterResult × UserStore :=
  if store.any (fun a => a.email == email) then (.duplicate, store)
  else
    (.ok newId email,
     store ++ [{ id := newId, email := email, password := hashedPassword,
                 resetToken := none, resetExpires := none }])

/-- The reset-token invariant of the spec: token and expiry are both set or
both null. -/
def tokenInvariant (a : Account) : Prop :=
  a.resetToken = none ↔ a.resetExpires = none

/-- The invariant holds for every account of the store. -/
def storeInvariant (s : UserStore) : Prop := ∀ a ∈ s, tokenInvariant a

/-- validatePassword, src/utils/validators.js lines 2-10; `none` is the
null return of a valid password. -/
def validatePassword (password : Option String) : Option String :=
  if !(jsTruthy password) then some "Password is required"
  else
    let p := password.getD ""
    if p.length < 8 then some "Password must be at least 8 characters"
    else if !(p.toList.any Char.isUpper) then
      some "Password must contain at least one uppercase letter"
    else if !(p.toList.any Char.isLower) then
      some "Password must contain at least one lowercase letter"
    else if !(p.toList.any Char.isDigit) then
      some "Password must contain at least one number"
    else if !(p.toList.any (fun c => !(c.isAlpha || c.isDigit))) then
      some "Password must contain at least one special character"
    else none

/-- validateUsername, src/utils/validators.js lines 13-19. -/
def validateUsername (username : Option String) : Option String :=
  if !(jsTruthy username) then some "Username is required"
  else
    let u := username.getD ""
    if u.length < 3 then some "Username must be at least 3 characters"
    else if u.length > 30 then some "Username must be less than 30 characters"
    else if !(u.toList.all (fun c => c.isAlpha || c.isDigit || c == '_')) then
      some "Username can only contain letters, numbers and underscores"
    else none

/-- A row of the user_accounts table of the revision stored as
src/unnamed/part_009. -/
structure UserAccount where
  id : Nat
  username : String
  password : String
  created_at : ℚ
deriving DecidableEq, Repr

/-- Response of the register route of src/unnamed/part_009 lines 57-124:
400 with a field name on a validation failure, 409 on a duplicate username,
201 with id, username and createdAt (and nothing else) on success. -/
inductive RegisterResult
  | badRequest (error field : String)
  | conflict (error field : String)
  | success (id : Nat) (username : String) (createdAt : ℚ)
deriving DecidableEq, Repr

/-- HTTP status attached to each RegisterResult branch. -/
def RegisterResult.status : RegisterResult → Nat
  | .badRequest _ _ => 400
  | .conflict _ _ => 409
  | .success _ _ _ => 201

/-- The register route of src/unnamed/part_009 lines 57-124: username
validation, password validation, the case-insensitive duplicate check of
lines 80-90, then the INSERT of lines 93-99 with the externally computed
bcrypt hash, answered by 201 with id, username and created_at only. -/
def registerAccount (store : List UserAccount) (username password : Option String)
    (hashedPassword : String) (newId : Nat) (createdAt : ℚ) :
    RegisterResult × List UserAccount :=
  match validateUsername username with
  | some e => (.badRequest e "username", store)
  | none =>
    match validatePassword password with
    | some e => (.badRequest e "password", store)
    | none =>
      let u := username.getD ""
      if store.any (fun a => jsToLower a.username == jsToLower u) then
        (.conflict "Username already taken" "username", store)
      else
        (.success newId u createdAt,
         store ++ [{ id := newId, username := u, password := hashedPassword,
                     created_at := createdAt }])

lemma get_isSome (c : StageCounts) (s : String) :
    (StageCounts.get c s).isSome = decide (s ∈ validStages) := by
  unfold StageCounts.get
  split_ifs with h1 h2 h3 h4 h5 <;> simp_all [validStages]

lemma metricsStage_eq (c : StageCounts) (s : String) :
    (if (StageCounts.get c s).isSome then s else "awareness") = classify s := by
  unfold classify
  by_cases h : s ∈ validStages
  · simp [get_isSome, h]
  · simp [get_isSome, h]

lemma metricsStep_unfold (now : ℚ) (acc : MetricsAcc) (l : Lead) :
    metricsStep now acc l =
      { counts := acc.counts.inc (classify l.stage)
        totalDaysInFunnel := acc.totalDaysInFunnel + daysAgo now l.created_at
        recentLeads := acc.recentLeads +
          (if daysAgo now l.created_at ≤ 7 then 1 else 0)
        hotLeads := acc.hotLeads +
          (if classify l.stage ∈ (["intent", "evaluation", "purchase"] : List String)
              ∧ daysAgo now l.created_at ≤ 7 then 1 else 0)
        staleLeads := acc.staleLeads +
          (if daysAgo now l.created_at > 14
              ∧ classify l.stage ∈ (["awareness", "interest"] : List String)
            then 1 else 0) } := by
  unfold metricsStep
  rw [metricsStage_eq]

lemma stageCount_cons (l : Lead) (t : List Lead) (s : String) :
    stageCount (l :: t) s = (if classify l.stage = s then 1 else 0) + stageCount t s := by
  unfold stageCount
  rw [List.filter_cons]
  by_cases h : classify l.stage = s <;> simp [h] <;> omega

lemma foldl_metrics_counts (now : ℚ) (leads : List Lead) :
    ∀ acc : MetricsAcc,
      (leads.foldl (metricsStep now) acc).counts =
        { awareness := acc.counts.awareness + stageCount leads "awareness"
          interest := acc.counts.interest + stageCount leads "interest"
          intent := acc.counts.intent + stageCount leads "intent"
          evaluation := acc.counts.evaluation + stageCount leads "evaluation"
          purchase := acc.counts.purchase + stageCount leads "purchase" } := by
  induction leads with
  | nil => intro acc; simp [stageCount]
  | cons l t ih =>
    intro acc
    rw [List.foldl_cons, ih (metricsStep now acc l), metricsStep_unfold]
    rcases classify_cases l.stage with h|h|h|h|h <;>
      simp [h, StageCounts.inc, stageCount_cons, String.reduceEq] <;> omega

lemma foldl_metrics_total (now : ℚ) (leads : List Lead) :
    ∀ acc : MetricsAcc,
      (leads.foldl (metricsStep now) acc).totalDaysInFunnel =
        acc.totalDaysInFunnel + totalAgeDays leads now := by
  induction leads with
  | nil => intro acc; simp [totalAgeDays]
  | cons l t ih =>
    intro acc
    rw [List.foldl_cons, ih (metricsStep now acc l), metricsStep_unfold]
    simp [totalAgeDays]
    ring

lemma foldl_metrics_recent (now : ℚ) (leads : List Lead) :
    ∀ acc : MetricsAcc,
      (leads.foldl (metricsStep now) acc).recentLeads =
        acc.recentLeads + recentCount leads now := by
  induction leads with
  | nil => intro acc; simp [recentCount]
  | cons l t ih =>
    intro acc
    rw [List.foldl_cons, ih (metricsStep now acc l), metricsStep_unfold]
    unfold recentCount
    rw [List.filter_cons]
    by_cases h : daysAgo now l.created_at ≤ 7 <;> simp [h, recentCount] <;> omega

lemma foldl_metrics_hot (now : ℚ) (leads : List Lead) :
    ∀ acc : MetricsAcc,
      (leads.foldl (metricsStep now) acc).hotLeads =
        acc.hotLeads + hotCount leads now := by
  induction leads with
  | nil => intro acc; simp [hotCount]
  | cons l t ih =>
    intro acc
    rw [List.foldl_cons, ih (metricsStep now acc l), metricsStep_unfold]
    unfold hotCount
    rw [List.filter_cons]
    by_cases h : classify l.stage ∈ (["intent", "evaluation", "purchase"] : List String)
        ∧ daysAgo now l.created_at ≤ 7 <;>
      simp only [List.mem_cons, List.not_mem_nil, or_false] at h <;>
      simp [h, hotCount] <;> omega

lemma foldl_metrics_stale (now : ℚ) (leads : List Lead) :
    ∀ acc : MetricsAcc,
      (leads.foldl (metricsStep now) acc).staleLeads =
        acc.staleLeads + staleCount leads now := by
  induction leads with
  | nil => intro acc; simp [staleCount]
  | cons l t ih =>
    intro acc
    rw [List.foldl_cons, ih (metricsStep now acc l), metricsStep_unfold]
    unfold staleCount
    rw [List.filter_cons]
    by_cases h : daysAgo now l.created_at > 14
        ∧ classify l.stage ∈ (["awareness", "interest"] : List String) <;>
      simp only [List.mem_cons, List.not_mem_nil, or_false] at h <;>
      simp [h, staleCount] <;> omega

lemma bucketOf_length (leads : List Lead) (s : String) :
    (bucketOf leads s).length = stageCount leads s := by
  simp [bucketOf, stageCount]

lemma stageCount_total (leads : List Lead) :
    stageCount leads "awareness" + stageCount leads "interest" +
      stageCount leads "intent" + stageCount leads "evaluation" +
      stageCount leads "purchase" = leads.length := by
  induction leads with
  | nil => simp [stageCount]
  | cons l t ih =>
    rcases classify_cases l.stage with h|h|h|h|h <;>
      simp only [stageCount_cons, h, String.reduceEq, reduceIte, List.length_cons] <;>
      omega

lemma bucketOf_currentStage (leads : List Lead) (s : String) (x : GroupedLead)
    (hx : x ∈ bucketOf leads s) : x.currentStage = s := by
  unfold bucketOf at hx
  rcases List.mem_map.1 hx with ⟨l, hl, rfl⟩
  have h2 := (List.mem_filter.1 hl).2
  rw [beq_iff_eq] at h2
  simpa [mkGroupedLead] using h2

lemma mem_fetchRows (store : List Lead) (uid : Nat) (l : Lead) :
    l ∈ fetchRows store uid ↔ l ∈ store ∧ l.user_id = uid := by
  unfold fetchRows
  rw [List.mem_mergeSort, List.mem_filter]
  simp

/-- C1: every classified stage is one of the five canonical stages; any
string that is not exactly one of the five maps to awareness; and this very
mapping is the one the grouping step applies to each displayed lead and the
one POST /api/leads applies to the persisted stage. -/
theorem classification_total_and_uniform :
    (∀ s : String, classify s ∈ validStages)
    ∧ (∀ s : String, s ∉ validStages → classify s = "awareness")
    ∧ (∀ (g : Grouped) (lead : Lead),
        groupStep g lead
          = pushAt g (classify lead.stage) (mkGroupedLead lead (classify lead.stage)))
    ∧ (∀ (uid : Nat) (body : CreateBody) (newId : Nat) (now : ℚ),
        (insertedLead uid body newId now).stage
          = classify (body.stage.getD "awareness")) := by
  refine ⟨classify_mem, ?_, groupStep_eq, ?_⟩
  · intro s h
    simp [classify, h]
  · intro uid body newId now
    rfl

/-- Witness for C1 at the concrete non-canonical stage string "hello". -/
theorem classification_total_and_uniform_witness :
    "hello" ∉ validStages ∧ classify "hello" = "awareness" :=
  ⟨by decide, classification_total_and_uniform.2.1 "hello" (by decide)⟩

/-- C2: groupLeadsByStage is a lossless, order-preserving partition: the
bucket lengths sum to the input length, the bucket of each canonical stage
is exactly the classified filter of the input in input order (so no lead is
dropped and relative order is preserved), and each lead matches exactly one
canonical stage. -/
theorem groupByStage_lossless_partition (leads : List Lead) :
    ((groupLeadsByStage leads).map (fun p => p.2.length)).sum = leads.length
    ∧ (∀ s ∈ validStages,
        List.lookup s (groupLeadsByStage leads) = some (bucketOf leads s))
    ∧ (∀ l ∈ leads,
        (validStages.filter (fun s => classify l.stage == s)).length = 1) := by
  refine ⟨?_, ?_, ?_⟩
  · rw [groupLeadsByStage_eq]
    simp only [List.map_cons, List.map_nil, List.sum_cons, List.sum_nil,
      bucketOf_length]
    have := stageCount_total leads
    omega
  · intro s hs
    rw [groupLeadsByStage_eq]
    simp only [validStages, List.mem_cons, List.not_mem_nil, or_false] at hs
    rcases hs with h|h|h|h|h <;> subst h <;> rfl
  · intro l _
    rcases classify_cases l.stage with h|h|h|h|h <;>
      simp [validStages, h]

/-- Witness for C2 at a one-lead list with stage interest. -/
def sampleLead : Lead :=
  { id := 1, user_id := 1, company := "Acme", contact := "Bob",
    email := "a@b.c", stage := "interest", notes := "", content := "",
    created_at := 0 }

theorem groupByStage_lossless_partition_witness :
    ((groupLeadsByStage [sampleLead]).map (fun p => p.2.length)).sum = 1
    ∧ List.lookup "interest" (groupLeadsByStage [sampleLead])
        = some (bucketOf [sampleLead] "interest")
    ∧ (validStages.filter (fun s => classify sampleLead.stage == s)).length = 1 :=
  ⟨(groupByStage_lossless_partition [sampleLead]).1,
   (groupByStage_lossless_partition [sampleLead]).2.1 "interest" (by decide),
   (groupByStage_lossless_partition [sampleLead]).2.2 sampleLead (by simp)⟩

/-- C10: the grouped response always carries exactly the five canonical keys
in order, whatever the input; and fetching the leads of an owner who has
none answers the same five-key shape with every sequence empty. -/
theorem grouped_response_five_keys :
    (∀ leads : List Lead, (groupLeadsByStage leads).map Prod.fst = validStages)
    ∧ (∀ (store : List Lead) (uid : Nat),
        (∀ l ∈ store, l.user_id ≠ uid) → getLeads store uid = emptyGrouped) := by
  constructor
  · intro leads
    rw [groupLeadsByStage_eq]
    rfl
  · intro store uid h
    have hf : store.filter (fun l => l.user_id == uid) = [] := by
      rw [List.filter_eq_nil_iff]
      intro l hl
      simp [h l hl]
    simp [getLeads, fetchRows, hf, emptyGrouped]

/-- Witness for C10 at the empty store. -/
theorem grouped_response_five_keys_witness :
    getLeads [] 1 = emptyGrouped :=
  grouped_response_five_keys.2 [] 1 (by intro l hl; cases hl)

/-- Closed form of the metrics report: every accumulator replaced by its
reference count over the input list. -/
lemma computeMetrics_eq (leads : List Lead) (now : ℚ) :
    computeMetrics leads now =
      { totalLeads := leads.length
        awarenessToInterest :=
          if stageCount leads "awareness" > 0
            then jsRound (((stageCount leads "interest" : ℚ)
              / (stageCount leads "awareness" : ℚ)) * 100)
            else 0
        interestToConsideration :=
          if stageCount leads "interest" > 0
            then jsRound ((((stageCount leads "intent"
                + stageCount leads "evaluation" : ℕ) : ℚ)
              / (stageCount leads "interest" : ℚ)) * 100)
            else 0
        conversionRate :=
          if stageCount leads "awareness" > 0
            then jsRound (((stageCount leads "purchase" : ℚ)
              / (stageCount leads "awareness" : ℚ)) * 100)
            else 0
        avgTimeInFunnel :=
          if leads.length > 0
            then some (toFixed1 (totalAgeDays leads now / (leads.length : ℚ)))
            else none
        stageDistribution :=
          { awareness := if leads.length > 0
              then jsRound (((stageCount leads "awareness" : ℚ)
                / (leads.length : ℚ)) * 100) else 0
            interest := if leads.length > 0
              then jsRound (((stageCount leads "interest" : ℚ)
                / (leads.length : ℚ)) * 100) else 0
            intent := if leads.length > 0
              then jsRound (((stageCount leads "intent" : ℚ)
                / (leads.length : ℚ)) * 100) else 0
            evaluation := if leads.length > 0
              then jsRound (((stageCount leads "evaluation" : ℚ)
                / (leads.length : ℚ)) * 100) else 0
            purchase := if leads.length > 0
              then jsRound (((stageCount leads "purchase" : ℚ)
                / (leads.length : ℚ)) * 100) else 0 }
        leadsAddedThisWeek := recentCount leads now
        inferredHotLeads := hotCount leads now
        engagementRate :=
          if leads.length > 0
            then jsRound (((recentCount leads now : ℚ) / (leads.length : ℚ)) * 100)
            else 0
        staleLeads := staleCount leads now } := by
  simp only [computeMetrics]
  rw [foldl_metrics_counts now leads emptyMetricsAcc,
    foldl_metrics_total now leads emptyMetricsAcc,
    foldl_metrics_recent now leads emptyMetricsAcc,
    foldl_metrics_hot now leads emptyMetricsAcc,
    foldl_metrics_stale now leads emptyMetricsAcc]
  simp [emptyMetricsAcc]

/-- C3: each derived ratio of the metrics report carries a zero-denominator
guard, avgTimeInFunnel is the one-decimal rounding of totalAgeDays over the
lead count and null without leads, and the empty input yields all-zero stage
counts and an all-zero stage distribution. -/
theorem metrics_division_guards (leads : List Lead) (now : ℚ) :
    (0 < stageCount leads "awareness" →
       (computeMetrics leads now).conversionRate
         = jsRound (100 * (stageCount leads "purchase" : ℚ)
             / (stageCount leads "awareness" : ℚ))
       ∧ (computeMetrics leads now).awarenessToInterest
         = jsRound (100 * (stageCount leads "interest" : ℚ)
             / (stageCount leads "awareness" : ℚ)))
    ∧ (stageCount leads "awareness" = 0 →
        (computeMetrics leads now).conversionRate = 0
        ∧ (computeMetrics leads now).awarenessToInterest = 0)
    ∧ (0 < stageCount leads "interest" →
        (computeMetrics leads now).interestToConsideration
          = jsRound (100 * ((stageCount leads "intent" : ℚ)
              + (stageCount leads "evaluation" : ℚ))
              / (stageCount leads "interest" : ℚ)))
    ∧ (stageCount leads "interest" = 0 →
        (computeMetrics leads now).interestToConsideration = 0)
    ∧ (leads ≠ [] →
        (computeMetrics leads now).avgTimeInFunnel
          = some (toFixed1 (totalAgeDays leads now / (leads.length : ℚ))))
    ∧ (leads = [] →
        (computeMetrics leads now).avgTimeInFunnel = none
        ∧ (leads.foldl (metricsStep now) emptyMetricsAcc).counts = ⟨0, 0, 0, 0, 0⟩
        ∧ (computeMetrics leads now).stageDistribution = ⟨0, 0, 0, 0, 0⟩) := by
  rw [computeMetrics_eq]
  refine ⟨?_, ?_, ?_, ?_, ?_, ?_⟩
  · intro h
    constructor
    · simp only [if_pos h]
      congr 1
      ring
    · simp only [if_pos h]
      congr 1
      ring
  · intro h
    simp [h]
  · intro h
    simp only [if_pos h]
    congr 1
    push_cast
    ring
  · intro h
    simp [h]
  · intro h
    have hl : 0 < leads.length := List.length_pos.2 h
    simp [hl]
  · intro h
    subst h
    refine ⟨by simp, rfl, by simp [stageCount]⟩

/-- Witness for C3 at a single awareness lead created now. -/
def awarenessLead : Lead :=
  { id := 3, user_id := 1, company := "Acme", contact := "", email := "",
    stage := "awareness", notes := "", content := "", created_at := 0 }

theorem metrics_division_guards_witness :
    0 < stageCount [awarenessLead] "awareness"
    ∧ (computeMetrics [awarenessLead] 0).conversionRate
        = jsRound (100 * (stageCount [awarenessLead] "purchase" : ℚ)
            / (stageCount [awarenessLead] "awareness" : ℚ))
    ∧ stageCount [] "awareness" = 0
    ∧ (computeMetrics [] 0).conversionRate = 0
    ∧ (computeMetrics [] 0).avgTimeInFunnel = none :=
  ⟨by decide,
   ((metrics_division_guards [awarenessLead] 0).1 (by decide)).1,
   by decide,
   ((metrics_division_guards [] 0).2.1 (by decide)).1,
   ((metrics_division_guards [] 0).2.2.2.2.2 rfl).1⟩

/-- The two-lead example of the claim: one purchase lead created now and one
awareness lead created twenty days earlier. -/
def demoNow : ℚ := 20 * 86400000

def demoLeads : List Lead :=
  [{ id := 1, user_id := 1, company := "A", contact := "", email := "",
     stage := "purchase", notes := "", content := "", created_at := demoNow },
   { id := 2, user_id := 1, company := "B", contact := "", email := "",
     stage := "awareness", notes := "", content := "", created_at := 0 }]

/-- C4: the recent, hot and stale counters count exactly the leads passing
the age-and-stage thresholds of the loop, and on the two-lead example the
conversion rate is 100 and the stale count is 1. -/
theorem metrics_age_thresholds :
    (∀ (leads : List Lead) (now : ℚ),
      (computeMetrics leads now).leadsAddedThisWeek = recentCount leads now
      ∧ (computeMetrics leads now).inferredHotLeads = hotCount leads now
      ∧ (computeMetrics leads now).staleLeads = staleCount leads now)
    ∧ (computeMetrics demoLeads demoNow).conversionRate = 100
    ∧ (computeMetrics demoLeads demoNow).staleLeads = 1 := by
  refine ⟨?_, ?_, ?_⟩
  · intro leads now
    rw [computeMetrics_eq]
    exact ⟨rfl, rfl, rfl⟩
  · rw [computeMetrics_eq]
    have h1 : stageCount demoLeads "awareness" = 1 := by decide
    have h2 : stageCount demoLeads "purchase" = 1 := by decide
    rw [h1, h2]
    norm_num [jsRound]
  · rw [computeMetrics_eq]
    show staleCount demoLeads demoNow = 1
    unfold staleCount demoLeads
    rw [List.filter_cons, List.filter_cons]
    norm_num [daysAgo, demoNow, classify, validStages]

lemma lookup_groupLeadsByStage (leads : List Lead) (s : String)
    (hs : s ∈ validStages) :
    List.lookup s (groupLeadsByStage leads) = some (bucketOf leads s) := by
  rw [groupLeadsByStage_eq]
  simp only [validStages, List.mem_cons, List.not_mem_nil, or_false] at hs
  rcases hs with h|h|h|h|h <;> subst h <;> rfl

/-- C5: an authenticated create with stage interest persists the classified
stage interest, and the grouped leads fetched right after place the new lead
under the interest key and under no other canonical key. -/
theorem create_interest_roundtrip (store : List Lead) (uid : Nat)
    (body : CreateBody) (newId : Nat) (now : ℚ)
    (hc : jsTruthy body.company = true) (hk : jsTruthy body.contact = true)
    (he : jsTruthy body.email = true)
    (hv : validateLeadData body.company body.email = none)
    (hs : body.stage = some "interest") :
    (insertedLead uid body newId now).stage = "interest"
    ∧ ∃ g b, (createLead store uid body newId now).1 = CreateResult.created g
      ∧ List.lookup "interest" g = some b
      ∧ mkGroupedLead (insertedLead uid body newId now) "interest" ∈ b
      ∧ (∀ s ∈ validStages, s ≠ "interest" →
          ∀ b', List.lookup s g = some b' →
            mkGroupedLead (insertedLead uid body newId now) "interest" ∉ b') := by
  have hstage : (insertedLead uid body newId now).stage = "interest" := by
    simp [insertedLead, hs, validStages]
  have hclass : classify (insertedLead uid body newId now).stage = "interest" := by
    rw [hstage]
    simp [classify, validStages]
  refine ⟨hstage, ?_⟩
  have hcreate : (createLead store uid body newId now).1
      = CreateResult.created (groupLeadsByStage
          (fetchRows (store ++ [insertedLead uid body newId now]) uid)) := by
    simp [createLead, hc, hk, he, hv]
  refine ⟨_, bucketOf (fetchRows (store ++ [insertedLead uid body newId now]) uid)
      "interest", hcreate, lookup_groupLeadsByStage _ _ (by simp [validStages]), ?_, ?_⟩
  · have hmem : insertedLead uid body newId now
        ∈ fetchRows (store ++ [insertedLead uid body newId now]) uid := by
      rw [mem_fetchRows]
      exact ⟨List.mem_append_right _ (List.mem_singleton.2 rfl), rfl⟩
    unfold bucketOf
    have hf : insertedLead uid body newId now
        ∈ (fetchRows (store ++ [insertedLead uid body newId now]) uid).filter
            (fun l => classify l.stage == "interest") :=
      List.mem_filter.2 ⟨hmem, by simp [hclass]⟩
    refine List.mem_map.2 ⟨insertedLead uid body newId now, hf, ?_⟩
    rw [hclass]
  · intro s hsv hne b' hb'
    rw [lookup_groupLeadsByStage _ _ hsv] at hb'
    injection hb' with hb'
    subst hb'
    intro hmem
    have := bucketOf_currentStage _ _ _ hmem
    simp [mkGroupedLead] at this
    exact hne this.symm

/-- Witness for C5: empty store, a fully valid body with stage interest. -/
def sampleBody : CreateBody :=
  { company := some "Acme", contact := some "Bob", email := some "a@b.c",
    stage := some "interest", notes := none, content := none }

theorem create_interest_roundtrip_witness :
    jsTruthy sampleBody.company = true
    ∧ jsTruthy sampleBody.contact = true
    ∧ jsTruthy sampleBody.email = true
    ∧ validateLeadData sampleBody.company sampleBody.email = none
    ∧ sampleBody.stage = some "interest"
    ∧ ((insertedLead 1 sampleBody 7 0).stage = "interest"
      ∧ ∃ g b, (createLead [] 1 sampleBody 7 0).1 = CreateResult.created g
        ∧ List.lookup "interest" g = some b
        ∧ mkGroupedLead (insertedLead 1 sampleBody 7 0) "interest" ∈ b
        ∧ (∀ s ∈ validStages, s ≠ "interest" →
            ∀ b', List.lookup s g = some b' →
              mkGroupedLead (insertedLead 1 sampleBody 7 0) "interest" ∉ b')) :=
  ⟨by decide, by decide, by decide, by decide, rfl,
   create_interest_roundtrip [] 1 sampleBody 7 0 (by decide) (by decide)
     (by decide) (by decide) rfl⟩

lemma validateLeadData_none_iff (company email : Option String)
    (hc : jsTruthy company = true) (he : jsTruthy email = true) :
    validateLeadData company email = none ↔
      (¬((jsTrim (company.getD "")).length < 2)
        ∧ emailRegexTest (email.getD "") = true) := by
  unfold validateLeadData
  by_cases h1 : (jsTrim (company.getD "")).length < 2 <;>
    by_cases h2 : emailRegexTest (email.getD "") = true <;>
      simp [hc, he, h1, h2]

lemma validateLeadData_some_iff (company email : Option String)
    (hc : jsTruthy company = true) (he : jsTruthy email = true) :
    (∃ e, validateLeadData company email = some e) ↔
      ((jsTrim (company.getD "")).length < 2
        ∨ emailRegexTest (email.getD "") = false) := by
  rcases hv : validateLeadData company email with _ | e
  · rw [validateLeadData_none_iff company email hc he] at hv
    simp only [hv.2]
    constructor
    · rintro ⟨e, he'⟩
      cases he'
    · rintro (h | h)
      · exact absurd h hv.1
      · cases h
  · constructor
    · intro _
      by_contra hcon
      push_neg at hcon
      have : validateLeadData company email = none := by
        rw [validateLeadData_none_iff company email hc he]
        refine ⟨by omega, ?_⟩
        cases hb : emailRegexTest (email.getD "")
        · exact absurd hb hcon.2
        · rfl
      rw [this] at hv
      cases hv
    · intro _
      exact ⟨e, rfl⟩

/-- The body of the C6 counterexample: a valid company and nothing else. -/
def companyOnlyBody : CreateBody :=
  { company := some "Acme", contact := none, email := none,
    stage := none, notes := none, content := none }

/-- C6 counterexample: a create request supplying only a valid company is
rejected with 400 by the missing-required-fields guard of
src/routes/leads.js line 142, so contact and email are not optional on
create as the claim states. -/
theorem create_companyOnly_rejected :
    (createLead [] 1 companyOnlyBody 1 0).1
      = CreateResult.missingFields ["Company, contact, and email are required"]
    ∧ (createLead [] 1 companyOnlyBody 1 0).1.status = 400
    ∧ ∀ g, (createLead [] 1 companyOnlyBody 1 0).1 ≠ CreateResult.created g := by
  refine ⟨by decide, by decide, ?_⟩
  intro g h
  have h0 : (createLead [] 1 companyOnlyBody 1 0).1
      = CreateResult.missingFields ["Company, contact, and email are required"] := by
    decide
  rw [h0] at h
  cases h

/-- C6 amended: a create request is answered 400 by the missing-field guard
iff company, contact or email is absent or empty; when all three are
supplied non-empty, it fails validation iff the trimmed company is shorter
than 2 characters or the email does not match the email pattern, and
otherwise it succeeds with 201. -/
theorem create_validation_characterization (store : List Lead) (uid : Nat)
    (body : CreateBody) (newId : Nat) (now : ℚ) :
    ((createLead store uid body newId now).1
        = CreateResult.missingFields ["Company, contact, and email are required"]
      ↔ ¬(jsTruthy body.company = true ∧ jsTruthy body.contact = true
            ∧ jsTruthy body.email = true))
    ∧ (jsTruthy body.company = true → jsTruthy body.contact = true →
        jsTruthy body.email = true →
        (((createLead store uid body newId now).1.status = 400) ↔
          ((jsTrim (body.company.getD "")).length < 2
            ∨ emailRegexTest (body.email.getD "") = false))
        ∧ (¬((jsTrim (body.company.getD "")).length < 2)
            ∧ emailRegexTest (body.email.getD "") = true →
          (createLead store uid body newId now).1
            = CreateResult.created (groupLeadsByStage
                (fetchRows (store ++ [insertedLead uid body newId now]) uid)))) := by
  constructor
  · rcases hv : validateLeadData body.company body.email with _ | e <;>
      cases hcb : jsTruthy body.company <;> cases hkb : jsTruthy body.contact <;>
      cases heb : jsTruthy body.email <;>
      simp [createLead, hcb, hkb, heb, hv]
  · intro hcb hkb heb
    have hguard : (jsTruthy body.company && jsTruthy body.contact
        && jsTruthy body.email) = true := by
      rw [hcb, hkb, heb]
      rfl
    constructor
    · rcases hv : validateLeadData body.company body.email with _ | e
      · have := (validateLeadData_none_iff body.company body.email hcb heb).1 hv
        simp only [createLead, hguard, Bool.not_true, Bool.false_eq_true,
          reduceIte, hv, CreateResult.status]
        constructor
        · intro h
          cases h
        · intro h
          rcases h with h | h
          · exact absurd h this.1
          · rw [this.2] at h
            cases h
      · have : (jsTrim (body.company.getD "")).length < 2
            ∨ emailRegexTest (body.email.getD "") = false :=
          (validateLeadData_some_iff body.company body.email hcb heb).1 ⟨e, hv⟩
        simp only [createLead, hguard, Bool.not_true, Bool.false_eq_true,
          reduceIte, hv, CreateResult.status]
        simpa using this
    · intro hok
      have hv : validateLeadData body.company body.email = none :=
        (validateLeadData_none_iff body.company body.email hcb heb).2 hok
      simp [createLead, hguard, hv]

/-- Witness for C6 amended: the all-valid sample body is created with 201,
and its validity facts instantiate the characterization. -/
theorem create_validation_characterization_witness :
    jsTruthy sampleBody.company = true
    ∧ jsTruthy sampleBody.contact = true
    ∧ jsTruthy sampleBody.email = true
    ∧ ¬((jsTrim (sampleBody.company.getD "")).length < 2)
    ∧ emailRegexTest (sampleBody.email.getD "") = true
    ∧ (createLead [] 1 sampleBody 7 0).1
        = CreateResult.created (groupLeadsByStage
            (fetchRows ([] ++ [insertedLead 1 sampleBody 7 0]) 1)) :=
  ⟨by decide, by decide, by decide, by decide, by decide,
   ((create_validation_characterization [] 1 sampleBody 7 0).2
     (by decide) (by decide) (by decide)).2 ⟨by decide, by decide⟩⟩

/-- The body of the C7 counterexample: an update request with no fields. -/
def emptyUpdateBody : UpdateBody :=
  { company := none, contact := none, email := none,
    stage := none, notes := none, content := none }

/-- C7 counterexample: an update naming a lead id that does not exist (the
store is empty) is answered 400 by the validator, which runs before the
ownership check, not with the 404 the claim states for every such request. -/
theorem update_nonexistent_not_always_404 :
    (putLead [] 1 5 emptyUpdateBody).1
      = PutResult.validationFailed ["Company name must be at least 2 characters"]
    ∧ (putLead [] 1 5 emptyUpdateBody).1.status = 400
    ∧ (putLead [] 1 5 emptyUpdateBody).1 ≠ PutResult.notFound := by
  refine ⟨by decide, by decide, ?_⟩
  intro h
  have h0 : (putLead [] 1 5 emptyUpdateBody).1
      = PutResult.validationFailed ["Company name must be at least 2 characters"] := by
    decide
  rw [h0] at h
  cases h

/-- C7 amended: for every update request naming a lead id that does not
exist or belongs to another account, no stored lead is modified, and the
response is 404 whenever the body passes validation; a body failing
validation is answered 400 instead, again identically in both cases and
without modification. -/
theorem update_unowned_lead (store : List Lead) (callerId leadId : Nat)
    (body : UpdateBody)
    (h : ∀ l ∈ store, ¬(l.id = leadId ∧ l.user_id = callerId)) :
    (putLead store callerId leadId body).2 = store
    ∧ (validateLeadData body.company body.email = none →
        (putLead store callerId leadId body).1 = PutResult.notFound)
    ∧ (∀ e, validateLeadData body.company body.email = some e →
        (putLead store callerId leadId body).1 = PutResult.validationFailed e) := by
  have hany : (store.any (fun l => l.id == leadId && l.user_id == callerId)) = false := by
    rw [List.any_eq_false]
    intro l hl
    simpa using h l hl
  refine ⟨?_, ?_, ?_⟩
  · rcases hv : validateLeadData body.company body.email with _ | e <;>
      simp [putLead, hv, hany]
  · intro hv
    simp [putLead, hv, hany]
  · intro e hv
    simp [putLead, hv, hany]

/-- Witness for C7 amended: a store holding one lead of another owner, an
update of that lead id by a different caller with a valid body. -/
def otherOwnersLead : Lead :=
  { id := 5, user_id := 2, company := "Acme", contact := "Bob",
    email := "a@b.c", stage := "interest", notes := "", content := "",
    created_at := 0 }

theorem update_unowned_lead_witness :
    (∀ l ∈ [otherOwnersLead], ¬(l.id = 5 ∧ l.user_id = 1))
    ∧ validateLeadData (some "Acme") none = none
    ∧ (putLead [otherOwnersLead] 1 5
        { company := some "Acme", contact := none, email := none,
          stage := none, notes := none, content := none }).2 = [otherOwnersLead]
    ∧ (putLead [otherOwnersLead] 1 5
        { company := some "Acme", contact := none, email := none,
          stage := none, notes := none, content := none }).1 = PutResult.notFound := by
  have h : ∀ l ∈ [otherOwnersLead], ¬(l.id = 5 ∧ l.user_id = 1) := by
    intro l hl
    rw [List.mem_singleton] at hl
    subst hl
    decide
  have hv : validateLeadData (some "Acme") none = none := by decide
  exact ⟨h, hv,
    (update_unowned_lead [otherOwnersLead] 1 5 _ h).1,
    (update_unowned_lead [otherOwnersLead] 1 5 _ h).2.1 hv⟩

/-- C8: the reset-token/expiry pairing invariant is preserved by every
credential-store operation; a password-reset request stores token and expiry
together; a failed consume leaves the store untouched; and a successful
consume moves every affected row in one step to the fully updated state (new
hash, both reset fields cleared), so no partial state is ever observable. -/
theorem reset_token_pairing_invariant
    (store : UserStore) (email token : String) (tok pw : Option String)
    (newHash hashedPassword : String) (newId : Nat) (now : ℚ)
    (hinv : storeInvariant store) :
    storeInvariant (requestReset store email token now).2
    ∧ storeInvariant (resetPassword store tok pw newHash now).2
    ∧ storeInvariant (registerUser store email hashedPassword newId).2
    ∧ ((requestReset store email token now).1 = ResetRequestResult.sent →
        ∀ a ∈ (requestReset store email token now).2, a.email = email →
          a.resetToken = some token ∧ a.resetExpires = some (now + 3600000))
    ∧ ((resetPassword store tok pw newHash now).1 ≠ ResetPasswordResult.ok →
        (resetPassword store tok pw newHash now).2 = store)
    ∧ (∀ a ∈ (resetPassword store tok pw newHash now).2,
        a ∈ store ∨ (a.password = newHash ∧ a.resetToken = none
          ∧ a.resetExpires = none)) := by
  refine ⟨?_, ?_, ?_, ?_, ?_, ?_⟩
  · unfold requestReset
    by_cases hex : store.any (fun a => a.email == email) = true
    · simp only [hex, reduceIte]
      intro a ha
      rcases List.mem_map.1 ha with ⟨orig, ho, rfl⟩
      by_cases he : (orig.email == email) = true
      · simp [he, tokenInvariant]
      · simp only [Bool.not_eq_true] at he
        simp [he]
        exact hinv orig ho
    · simp only [Bool.not_eq_true] at hex
      simp only [hex, Bool.false_eq_true, reduceIte]
      exact hinv
  · unfold resetPassword
    by_cases hg : (jsTruthy tok && jsTruthy pw) = true
    · simp only [hg, Bool.not_true, Bool.false_eq_true, reduceIte]
      by_cases hex : store.any (fun a => tokenMatches a (tok.getD "") now) = true
      · simp only [hex, reduceIte]
        intro a ha
        rcases List.mem_map.1 ha with ⟨orig, ho, rfl⟩
        by_cases he : (orig.resetToken == some (tok.getD "")) = true
        · simp [he, tokenInvariant]
        · simp only [Bool.not_eq_true] at he
          simp [he]
          exact hinv orig ho
      · simp only [Bool.not_eq_true] at hex
        simp only [hex, Bool.false_eq_true, reduceIte]
        exact hinv
    · simp only [Bool.not_eq_true] at hg
      simp only [hg, Bool.not_false, reduceIte]
      exact hinv
  · unfold registerUser
    by_cases hex : store.any (fun a => a.email == email) = true
    · simp only [hex, reduceIte]
      exact hinv
    · simp only [Bool.not_eq_true] at hex
      simp only [hex, Bool.false_eq_true, reduceIte]
      intro a ha
      rcases List.mem_append.1 ha with h | h
      · exact hinv a h
      · rw [List.mem_singleton] at h
        subst h
        simp [tokenInvariant]
  · unfold requestReset
    by_cases hex : store.any (fun a => a.email == email) = true
    · simp only [hex, reduceIte]
      intro _ a ha hae
      rcases List.mem_map.1 ha with ⟨orig, ho, rfl⟩
      by_cases he : (orig.email == email) = true
      · simp [he]
      · simp only [Bool.not_eq_true] at he
        simp only [he, Bool.false_eq_true, reduceIte] at hae ⊢
        rw [beq_eq_false_iff_ne] at he
        exact absurd hae he
    · simp only [Bool.not_eq_true] at hex
      simp only [hex, Bool.false_eq_true, reduceIte]
      intro h
      cases h
  · unfold resetPassword
    by_cases hg : (jsTruthy tok && jsTruthy pw) = true
    · simp only [hg, Bool.not_true, Bool.false_eq_true, reduceIte]
      by_cases hex : store.any (fun a => tokenMatches a (tok.getD "") now) = true
      · simp only [hex, reduceIte]
        intro h
        exact absurd rfl h
      · simp only [Bool.not_eq_true] at hex
        simp only [hex, Bool.false_eq_true, reduceIte]
        intro _
        trivial
    · simp only [Bool.not_eq_true] at hg
      simp only [hg, Bool.not_false, reduceIte]
      intro _
      trivial
  · unfold resetPassword
    by_cases hg : (jsTruthy tok && jsTruthy pw) = true
    · simp only [hg, Bool.not_true, Bool.false_eq_true, reduceIte]
      by_cases hex : store.any (fun a => tokenMatches a (tok.getD "") now) = true
      · simp only [hex, reduceIte]
        intro a ha
        rcases List.mem_map.1 ha with ⟨orig, ho, rfl⟩
        by_cases he : (orig.resetToken == some (tok.getD "")) = true
        · simp [he]
        · simp only [Bool.not_eq_true] at he
          simp [he]
          exact Or.inl ho
      · simp only [Bool.not_eq_true] at hex
        simp only [hex, Bool.false_eq_true, reduceIte]
        intro a ha
        exact Or.inl ha
    · simp only [Bool.not_eq_true] at hg
      simp only [hg, Bool.not_false, reduceIte]
      intro a ha
      exact Or.inl ha

/-- Witness for C8: a one-account store with no reset token pending, a reset
request for its email, and a consume attempt with an unknown token. -/
def plainAccount : Account :=
  { id := 1, email := "u@x.io", password := "hash0",
    resetToken := none, resetExpires := none }

theorem reset_token_pairing_invariant_witness :
    storeInvariant [plainAccount]
    ∧ storeInvariant (requestReset [plainAccount] "u@x.io" "tkn" 0).2
    ∧ ((resetPassword [plainAccount] (some "zz") (some "pw") "h2" 0).1
        ≠ ResetPasswordResult.ok →
      (resetPassword [plainAccount] (some "zz") (some "pw") "h2" 0).2
        = [plainAccount]) := by
  have hinv : storeInvariant [plainAccount] := by
    intro a ha
    rw [List.mem_singleton] at ha
    subst ha
    simp [tokenInvariant, plainAccount]
  exact ⟨hinv,
    (reset_token_pairing_invariant [plainAccount] "u@x.io" "tkn" (some "zz")
      (some "pw") "h2" "h" 9 0 hinv).1,
    (reset_token_pairing_invariant [plainAccount] "u@x.io" "tkn" (some "zz")
      (some "pw") "h2" "h" 9 0 hinv).2.2.2.2.1⟩

/-- The stored account of the C9 counterexample. -/
def aliceAccount : UserAccount :=
  { id := 1, username := "alice", password := "hash1", created_at := 0 }

/-- C9 counterexample: registering the already-taken username alice with a
too-short password is answered 400 by the password validator, which runs
before the duplicate check, not with the 409 conflict the claim states for
every request whose username already exists. -/
theorem register_duplicate_not_always_conflict :
    aliceAccount ∈ [aliceAccount] ∧ aliceAccount.username = "alice"
    ∧ (registerAccount [aliceAccount] (some "alice") (some "x") "h2" 2 0).1
        = RegisterResult.badRequest "Password must be at least 8 characters" "password"
    ∧ (registerAccount [aliceAccount] (some "alice") (some "x") "h2" 2 0).1.status
        = 400 := by
  refine ⟨List.mem_singleton.2 rfl, rfl, by decide, by decide⟩

/-- C9 amended: for a register request whose username and password pass
field validation, the duplicate check is case-insensitive: any existing
account whose lowercased username equals the lowercased requested username
(in particular one with the identical username) is answered 409 conflict
with the store unchanged, and when no such account exists the request
succeeds with 201 carrying exactly id, username and createdAt — never the
password hash — while the stored row keeps only the externally hashed
password. -/
theorem register_conflict_or_created (store : List UserAccount)
    (username password : Option String) (hashedPassword : String)
    (newId : Nat) (createdAt : ℚ)
    (hu : validateUsername username = none)
    (hp : validatePassword password = none) :
    ((∃ a ∈ store, jsToLower a.username = jsToLower (username.getD "")) →
      registerAccount store username password hashedPassword newId createdAt
        = (RegisterResult.conflict "Username already taken" "username", store))
    ∧ ((∀ a ∈ store, jsToLower a.username ≠ jsToLower (username.getD "")) →
      registerAccount store username password hashedPassword newId createdAt
        = (RegisterResult.success newId (username.getD "") createdAt,
           store ++ [{ id := newId, username := username.getD "",
                       password := hashedPassword, created_at := createdAt }]))
    ∧ (RegisterResult.conflict "Username already taken" "username").status = 409
    ∧ (RegisterResult.success newId (username.getD "") createdAt).status = 201 := by
  refine ⟨?_, ?_, rfl, rfl⟩
  · rintro ⟨a, ha, hname⟩
    have hex : (store.any (fun a => jsToLower a.username
        == jsToLower (username.getD ""))) = true := by
      rw [List.any_eq_true]
      exact ⟨a, ha, by simp [hname]⟩
    simp [registerAccount, hu, hp, hex]
  · intro hne
    have hex : (store.any (fun a => jsToLower a.username
        == jsToLower (username.getD ""))) = false := by
      rw [List.any_eq_false]
      intro a ha
      simpa using hne a ha
    simp [registerAccount, hu, hp, hex]

/-- A stored account whose username differs from the C9 witness request only
by case. -/
def mixedCaseAccount : UserAccount :=
  { id := 1, username := "Alice", password := "hash1", created_at := 0 }

/-- The account created by the C9 witness registration. -/
def bobAccount : UserAccount :=
  { id := 2, username := "bob", password := "h4", created_at := 0 }

/-- Witness for C9 amended: registering alice against a store holding Alice
(a duplicate differing only by case) is answered 409, and a fresh
registration of bob with a strong password on the same store succeeds. -/
theorem register_conflict_or_created_witness :
    validateUsername (some "alice") = none
    ∧ validatePassword (some "Passw0rd!") = none
    ∧ mixedCaseAccount.username = "Alice"
    ∧ (∃ a ∈ [mixedCaseAccount], jsToLower a.username = jsToLower "alice")
    ∧ registerAccount [mixedCaseAccount] (some "alice") (some "Passw0rd!") "h3" 2 0
        = (RegisterResult.conflict "Username already taken" "username",
           [mixedCaseAccount])
    ∧ validateUsername (some "bob") = none
    ∧ (∀ a ∈ [mixedCaseAccount], jsToLower a.username ≠ jsToLower "bob")
    ∧ registerAccount [mixedCaseAccount] (some "bob") (some "Passw0rd!") "h4" 2 0
        = (RegisterResult.success 2 "bob" 0, [mixedCaseAccount] ++ [bobAccount]) := by
  have hdup : ∃ a ∈ [mixedCaseAccount], jsToLower a.username = jsToLower "alice" :=
    ⟨mixedCaseAccount, List.mem_singleton.2 rfl, by decide⟩
  have hb : ∀ a ∈ [mixedCaseAccount], jsToLower a.username ≠ jsToLower "bob" := by
    intro a ha
    rw [List.mem_singleton] at ha
    subst ha
    decide
  refine ⟨by decide, by decide, rfl, hdup, ?_, by decide, hb, ?_⟩
  · exact (register_conflict_or_created [mixedCaseAccount] (some "alice")
      (some "Passw0rd!") "h3" 2 0 (by decide) (by decide)).1 hdup
  · exact (register_conflict_or_created [mixedCaseAccount] (some "bob")
      (some "Passw0rd!") "h4" 2 0 (by decide) (by decide)).2.1 hb
